import Mathlib

/-!
Verification of the auth-audience request-time credential verifier.

The definitions below are a shallow embedding of src/src/audience-handler.ts:
the option-resolution logic of addAuthAudience, the per-request handler
jwtAudienceHandler (header extraction, domain resolution, verification,
with the default hooks baked in: onAuthorized attaches the payload to
res.locals.jwt, the json builders resolve to null), and the authenticator
chain AuthAudience.authenticate.  The external jsonwebtoken capability
(sign / decode / verify) is modelled per its documented contract: a signed
token is its claims paired with the signing key, decode reads the claims
without checking the key, verify checks key, audience, issuer and expiry.
The route-exclusion matcher isExcludedRoute is embedded from the legacy
handler concatenated into src/src/audience-handler.spec.ts (lines
427-455), whose tests exercise it.
-/

/-- The audience option of the handler: a single expected audience or a list
of acceptable audiences (the TypeScript option is string or string array). -/
inductive Aud
  | one (a : String)
  | many (as : List String)
deriving DecidableEq, Repr

/-- A JWT claims object as used by this plugin: the audience, issuer, domain
and expiry claims the code inspects, plus any remaining claims as an
association list so that two payloads are equal exactly when all their
claims are equal. -/
structure Claims where
  aud : Option String := none
  iss : Option String := none
  domain : Option String := none
  exp : Option Int := none
  extra : List (String × String) := []
deriving DecidableEq, Repr

/-- A token produced by the external signing capability: the claims that were
signed together with the key they were signed with. -/
structure SignedToken where
  claims : Claims
  sigKey : String
deriving DecidableEq, Repr

/-- Model of jsonwebtoken's sign: pair the claims with the signing key. -/
def signToken (c : Claims) (key : String) : SignedToken := ⟨c, key⟩

/-- The jwtVerifyOptions object handed to verify: expected audience and
issuer, each optional (absent means the check is skipped). -/
structure VerifyOpts where
  audience : Option Aud := none
  issuer : Option String := none
deriving DecidableEq, Repr

/-- One entry of the domainedAudiences table: the audience, issuer and key
fields the handler reads from it. -/
structure DomainEntry where
  audience : String
  issuer : String
  key : String
deriving DecidableEq, Repr

/-- The options record as it stands after addAuthAudience applied its
defaults (lines 161-208 of audience-handler.ts): authHeader defaults to
Authorization, authScheme to Bearer (an explicit empty string is kept),
the status codes to 500 / 401 / 400, key to the empty string. -/
structure Options where
  authHeader : String := "Authorization"
  authScheme : String := "Bearer"
  jwtVerifyOptions : VerifyOpts := {}
  key : String := ""
  domainedAudiences : Option (List (String × DomainEntry)) := none
  serverErrorStatusCode : Nat := 500
  unauthorizedStatusCode : Nat := 401
  badRequestStatusCode : Nat := 400
deriving DecidableEq, Repr

/-- The reasons the external verify capability rejects a token. -/
inductive VerifyErr
  | emptyKey
  | badToken
  | badSignature
  | audienceMismatch
  | issuerMismatch
  | expired
deriving DecidableEq, Repr

/-- The error a failed AuthenticatorPluginResult carries, named after the
Error messages the handler constructs; domainDecodeTypeError is the
TypeError thrown when the domain branch indexes a null decode result;
verifyFailed wraps the external capability's rejection. -/
inductive ErrKind
  | noAuthorizationHeader
  | noAuthToken
  | unexpectedAuthScheme
  | unexpectedAuthHeaderContent
  | domainDecodeTypeError
  | verifyFailed (e : VerifyErr)
deriving DecidableEq, Repr

/-- An AuthenticatorPluginResult with the default hooks baked in: success
flag, transport status, the error (if any), and the payload the default
onAuthorized hook attached to res.locals.jwt (if any). -/
structure PluginResult where
  success : Bool
  status : Nat
  error : Option ErrKind := none
  localsJwt : Option Claims := none
deriving DecidableEq, Repr

deriving instance DecidableEq for Except

/-- The environment a request is processed in: which token strings decode to
which signed tokens (none for an undecodable string), and the clock the
expiry check reads. -/
structure JwtEnv where
  tokenOf : String → Option SignedToken
  now : Int

/-- Model of jsonwebtoken's decode with the json flag: read the claims of a
decodable token string without any signature check; null otherwise. -/
def decodeTok (env : JwtEnv) (s : String) : Option Claims :=
  (env.tokenOf s).map SignedToken.claims

/-- Audience check of the external verify capability: skipped when no
audience is expected, otherwise the token's aud claim must equal the
expected audience or belong to the expected list. -/
def audOk : Option Aud → Option String → Bool
  | none, _ => true
  | some (.one a), some ca => a == ca
  | some (.many as), some ca => as.contains ca
  | some _, none => false

/-- Issuer check of the external verify capability: skipped when no issuer
is expected, otherwise the token's iss claim must equal it. -/
def issOk : Option String → Option String → Bool
  | none, _ => true
  | some i, some ci => i == ci
  | some _, none => false

/-- Expiry check of the external verify capability: a token with no exp
claim never expires; one with exp e is expired once now reaches e. -/
def notExpired (now : Int) : Option Int → Bool
  | none => true
  | some e => decide (now < e)

/-- Model of jsonwebtoken's verify per its documented contract: an empty key
is never valid, an undecodable token is rejected, and otherwise the
signature key must match and the audience, issuer and expiry checks must
pass; on success the payload is the token's claims, exactly as signed. -/
def verifyModel (env : JwtEnv) (token key : String) (vo : VerifyOpts) : Except VerifyErr Claims :=
  if key = "" then .error .emptyKey
  else match env.tokenOf token with
    | none => .error .badToken
    | some t =>
      if t.sigKey ≠ key then .error .badSignature
      else if ¬ audOk vo.audience t.claims.aud then .error .audienceMismatch
      else if ¬ issOk vo.issuer t.claims.iss then .error .issuerMismatch
      else if ¬ notExpired env.now t.claims.exp then .error .expired
      else .ok t.claims

/-- Embedding of the JavaScript split on a single space character, the exact
semantics of authHeader.split of audience-handler.ts line 230: the empty
string yields one empty part, consecutive spaces yield empty parts. -/
def splitOnSpaceAux : List Char → List Char → List String
  | [], acc => [String.mk acc.reverse]
  | c :: cs, acc =>
    if c = ' ' then String.mk acc.reverse :: splitOnSpaceAux cs []
    else splitOnSpaceAux cs (c :: acc)

/-- Split a string on single spaces, as JavaScript split does. -/
def splitOnSpace (s : String) : List String := splitOnSpaceAux s.data []

/-- The toLowerCase of the scheme comparison at line 249, applied
character by character. -/
def lowerStr (s : String) : String := String.mk (s.data.map Char.toLower)

/-- The first try block of jwtAudienceHandler (lines 214-271): absent (or,
by JavaScript truthiness, empty) header fails unauthorized with
NO_AUTHORIZATION_HEADER; with an empty configured scheme or a one-part
header the whole header is the token unless it equals the scheme exactly
(NO_AUTH_TOKEN, bad request); a two-part header has its first part compared
case-insensitively against the scheme (mismatch is UNEXPECTED_AUTH_SCHEME,
bad request) and its second part is the token; any longer split is
UNEXPECTED_AUTH_HEADER_CONTENT (bad request). -/
def headerStage (opts : Options) (authHeader : Option String) : Except PluginResult String :=
  match authHeader with
  | none => .error ⟨false, opts.unauthorizedStatusCode, some .noAuthorizationHeader, none⟩
  | some h =>
    if h = "" then .error ⟨false, opts.unauthorizedStatusCode, some .noAuthorizationHeader, none⟩
    else
      let parts := splitOnSpace h
      if opts.authScheme = "" ∨ parts.length = 1 then
        if h = opts.authScheme then
          .error ⟨false, opts.badRequestStatusCode, some .noAuthToken, none⟩
        else .ok h
      else if parts.length = 2 then
        if lowerStr (parts.headD "") ≠ lowerStr opts.authScheme then
          .error ⟨false, opts.badRequestStatusCode, some .unexpectedAuthScheme, none⟩
        else .ok (parts.getD 1 "")
      else .error ⟨false, opts.badRequestStatusCode, some .unexpectedAuthHeaderContent, none⟩

/-- The verify call and its result mapping (lines 301-318): a success is
status 200 with the payload attached to res.locals.jwt by the default
onAuthorized hook; a rejection is caught and returned as a failure with the
configured unauthorized status. -/
def runVerify (env : JwtEnv) (opts : Options) (key : String) (vo : VerifyOpts) (token : String) : PluginResult :=
  match verifyModel env token key vo with
  | .ok payload => ⟨true, 200, none, some payload⟩
  | .error e => ⟨false, opts.unauthorizedStatusCode, some (.verifyFailed e), none⟩

/-- The domain claim as the handler reads it (lines 288-292): a missing or,
by JavaScript truthiness, empty domain claim resolves to default. -/
def resolveDomain (c : Claims) : String :=
  match c.domain with
  | none => "default"
  | some d => if d = "" then "default" else d

/-- The verification constraints a domain table entry substitutes
(lines 295-296). -/
def entryVerifyOpts (e : DomainEntry) : VerifyOpts :=
  ⟨some (.one e.audience), some e.issuer⟩

/-- The second try block of jwtAudienceHandler (lines 281-318): with no
domain table, verify against the flat key and jwtVerifyOptions.  With a
table, decode the token without verification; a null decode makes the
domain read throw, caught as a failure with the unauthorized status.  When
the resolved domain is in the table, its audience and issuer are written
into opts.jwtVerifyOptions — the code aliases the shared options object, so
the returned options reflect that mutation — and its key is used; an
unknown domain keeps the flat configuration.  The pair returned is the
handler's result together with the options object as the request left it. -/
def verifyStage (env : JwtEnv) (opts : Options) (token : String) : PluginResult × Options :=
  match opts.domainedAudiences with
  | none => (runVerify env opts opts.key opts.jwtVerifyOptions token, opts)
  | some table =>
    match decodeTok env token with
    | none => (⟨false, opts.unauthorizedStatusCode, some .domainDecodeTypeError, none⟩, opts)
    | some c =>
      match table.lookup (resolveDomain c) with
      | some entry =>
        let vo := entryVerifyOpts entry
        let opts' := { opts with jwtVerifyOptions := vo }
        (runVerify env opts' entry.key vo token, opts')
      | none => (runVerify env opts opts.key opts.jwtVerifyOptions token, opts)

/-- The whole per-request handler jwtAudienceHandler (lines 210-319), with
the default hooks: header extraction then domain resolution and
verification.  It returns the plugin result together with the options
object as the request left it (the handler can mutate the shared
jwtVerifyOptions, see verifyStage). -/
def jwtAudienceHandler (env : JwtEnv) (opts : Options) (authHeader : Option String) : PluginResult × Options :=
  match headerStage opts authHeader with
  | .error r => (r, opts)
  | .ok token => verifyStage env opts token

/-- The loop of AuthAudience.authenticate (lines 147-155) with its
firstFailure accumulator: a result that is a failure while no failure is
recorded yet is recorded and the loop continues; any other attempt — a
success, a failure after one is already recorded, or an undefined result —
is returned at once; an exhausted list returns the recorded failure. -/
def authenticateLoop : List (Option PluginResult) → Option PluginResult → Option PluginResult
  | [], firstFailure => firstFailure
  | attempt :: rest, firstFailure =>
    match attempt with
    | some a =>
      if a.success = false ∧ firstFailure = none then authenticateLoop rest (some a)
      else some a
    | none => none

/-- AuthAudience.authenticate (lines 143-158) applied to the results the
configured strategies produce for the request, in order; firstFailure
starts uninitialized. -/
def authenticate (attempts : List (Option PluginResult)) : Option PluginResult :=
  authenticateLoop attempts none

/-- The sapi.config.authentication.jwt section addAuthAudience falls back
to for audience, issuer and key. -/
structure JwtConfig where
  audience : Option String := none
  issuer : Option String := none
  key : Option String := none
deriving DecidableEq, Repr

/-- The caller-supplied options object before addAuthAudience fills in its
defaults: every field optional. -/
structure OptionsIn where
  audience : Option Aud := none
  authHeader : Option String := none
  authScheme : Option String := none
  issuer : Option String := none
  domainedAudiences : Option (List (String × DomainEntry)) := none
  jwtVerifyOptions : Option VerifyOpts := none
  key : Option String := none
  serverErrorStatusCode : Option Nat := none
  unauthorizedStatusCode : Option Nat := none
  badRequestStatusCode : Option Nat := none
deriving DecidableEq, Repr

/-- The JavaScript or of two optional strings: an absent or empty (falsy)
first operand falls through to the second. -/
def jsOrStr (a b : Option String) : Option String :=
  match a with
  | some s => if s = "" then b else some s
  | none => b

/-- The JavaScript or of an optional status code with its default: absent
or zero (falsy) yields the default. -/
def jsOrNat (a : Option Nat) (d : Nat) : Nat :=
  match a with
  | some n => if n = 0 then d else n
  | none => d

/-- The audience fallback chain of lines 165-167: a provided non-empty
string or any provided list wins, otherwise the config value (when
non-empty), otherwise undefined. -/
def resolveAudience (a : Option Aud) (cfg : Option String) : Option Aud :=
  match a with
  | some (.one s) => if s = "" then (jsOrStr cfg none).map Aud.one else some (.one s)
  | some (.many as) => some (.many as)
  | none => (jsOrStr cfg none).map Aud.one

/-- The defaulting addAuthAudience performs on its options (lines 161-208):
audience, issuer and key fall back to the sapi config then to undefined
(key to the empty string), authHeader to Authorization, authScheme to
Bearer (a provided empty string is kept), jwtVerifyOptions to the resolved
audience and issuer, and the three status codes to 500, 401 and 400. -/
def resolveOptions (cfg : JwtConfig) (o : OptionsIn) : Options :=
  let audience := resolveAudience o.audience cfg.audience
  let issuer := jsOrStr o.issuer (jsOrStr cfg.issuer none)
  { authHeader := (jsOrStr o.authHeader none).getD "Authorization"
    authScheme := o.authScheme.getD "Bearer"
    jwtVerifyOptions := o.jwtVerifyOptions.getD ⟨audience, issuer⟩
    key := (jsOrStr o.key (jsOrStr cfg.key none)).getD ""
    domainedAudiences := o.domainedAudiences
    serverErrorStatusCode := jsOrNat o.serverErrorStatusCode 500
    unauthorizedStatusCode := jsOrNat o.unauthorizedStatusCode 401
    badRequestStatusCode := jsOrNat o.badRequestStatusCode 400 }

/-- A route-exclusion rule of the legacy handler embedded in
src/src/audience-handler.spec.ts: either a bare regular expression or an
IRouteExclusion object (lines 207-210) pairing a regular expression with a
dictionary of permitted methods.  The regular expression's test is
embedded as a path predicate, and the truthy-keyed method dictionary as an
optional list of the permitted method names; none covers both the bare
form and an object without a method constraint. -/
structure RouteExclusionRule where
  pattern : String → Bool
  method : Option (List String) := none

/-- One iteration of the isExcludedRoute loop (lines 436-452 of the
embedded legacy handler): a rule wins when its method constraint is absent
or holds the request's method, and its regular expression matches the
path; every other combination continues to the next rule. -/
def ruleMatches (r : RouteExclusionRule) (path meth : String) : Bool :=
  r.pattern path && (match r.method with
    | none => true
    | some ms => ms.contains meth)

/-- The isExcludedRoute loop (lines 435-452): scan the rules in list
order, stop at the first that wins; no winner leaves the result false. -/
def isExcluded : List RouteExclusionRule → String → String → Bool
  | [], _, _ => false
  | r :: rest, path, meth =>
    if ruleMatches r path meth then true else isExcluded rest path meth

/-- The query-stripping half of line 433 of the embedded legacy handler,
originalUrl.split of a question mark taken at index 0: the characters
before the first question mark. -/
def stripQuery (p : String) : String :=
  String.mk (p.data.takeWhile (fun c => c ≠ '?'))

/-- The path isExcludedRoute evaluates its rules against (line 433):
the query is stripped first, then baseUrlOffset characters — the length of
sapi.baseUrl, or zero when none is set (line 335) — are dropped
unconditionally, with the substring semantics that an offset past the end
leaves the empty string. -/
def exclusionPath (baseUrlOffset : Nat) (originalUrl : String) : String :=
  String.mk ((stripQuery originalUrl).data.drop baseUrlOffset)

/-- isExcludedRoute (lines 427-455 of the embedded legacy handler): absent
excludedRoutes means no request is excluded; otherwise the rules are
scanned against the query-stripped, offset-stripped path. -/
def isExcludedRoute (excludedRoutes : Option (List RouteExclusionRule))
    (baseUrlOffset : Nat) (originalUrl meth : String) : Bool :=
  match excludedRoutes with
  | none => false
  | some rules => isExcluded rules (exclusionPath baseUrlOffset originalUrl) meth

/-! Helper lemmas shared by the claim theorems. -/

/-- A failing result out of runVerify always carries the configured
unauthorized status: the catch around the verify call maps every rejection
there. -/
theorem runVerify_failure_status (env : JwtEnv) (opts : Options) (key : String)
    (vo : VerifyOpts) (token : String)
    (h : (runVerify env opts key vo token).success = false) :
    (runVerify env opts key vo token).status = opts.unauthorizedStatusCode := by
  unfold runVerify at h ⊢
  cases hv : verifyModel env token key vo with
  | error e => simp [hv]
  | ok p => simp [hv] at h

/-- The empty string splits into a single empty part, exactly as the
JavaScript split does. -/
theorem splitOnSpace_empty : splitOnSpace "" = [""] := rfl

/-- A string whose split has two parts is not empty. -/
theorem splitOnSpace_two_ne_empty (h p0 p1 : String)
    (hsplit : splitOnSpace h = [p0, p1]) : h ≠ "" := by
  intro he
  rw [he, splitOnSpace_empty] at hsplit
  simp at hsplit

/-! The claims. -/

/-- C1: the claim says a chain in which every strategy fails returns the
first-recorded failure.  The code does not: once firstFailure is set, the
next failing attempt takes the else branch and is returned at once, so a
chain of two distinct failures returns the second.  This contradicts the
method's own doc comment (return the result of the first failure). -/
theorem chain_returns_second_failure :
    authenticate [some ⟨false, 401, some .noAuthorizationHeader, none⟩,
        some ⟨false, 400, some .unexpectedAuthScheme, none⟩] =
      some ⟨false, 400, some .unexpectedAuthScheme, none⟩ ∧
    (⟨false, 400, some .unexpectedAuthScheme, none⟩ : PluginResult) ≠
      ⟨false, 401, some .noAuthorizationHeader, none⟩ := by
  decide

/-- C2: the claim says the chain continues past every failure and returns a
later success.  The code returns the second failure of a
fail-fail-succeed chain at once; the succeeding third strategy never
runs, contradicting the doc comment that each handler is attempted. -/
theorem chain_stops_before_later_success :
    authenticate [some ⟨false, 401, some (.verifyFailed .badSignature), none⟩,
        some ⟨false, 401, some (.verifyFailed .expired), none⟩,
        some ⟨true, 200, none, none⟩] =
      some ⟨false, 401, some (.verifyFailed .expired), none⟩ ∧
    (⟨false, 401, some (.verifyFailed .expired), none⟩ : PluginResult).success = false := by
  decide

/-- C3: the claim says request processing never mutates the configuration.
The handler aliases options.jwtVerifyOptions and overwrites its audience
and issuer whenever a domain resolves, so after one such request the
options object differs from its post-construction value. -/
theorem handler_mutates_options :
    (jwtAudienceHandler
        ⟨fun s => if s == "tok" then some ⟨⟨none, none, some "default", none, []⟩, "456"⟩ else none, 0⟩
        { jwtVerifyOptions := ⟨none, none⟩, key := "",
          domainedAudiences := some [("default", ⟨"aud2", "iss2", "456"⟩)] }
        (some "tok")).2.jwtVerifyOptions = ⟨some (.one "aud2"), some "iss2"⟩ ∧
    (jwtAudienceHandler
        ⟨fun s => if s == "tok" then some ⟨⟨none, none, some "default", none, []⟩, "456"⟩ else none, 0⟩
        { jwtVerifyOptions := ⟨none, none⟩, key := "",
          domainedAudiences := some [("default", ⟨"aud2", "iss2", "456"⟩)] }
        (some "tok")).2 ≠
      { jwtVerifyOptions := ⟨none, none⟩, key := "",
        domainedAudiences := some [("default", ⟨"aud2", "iss2", "456"⟩)] } := by
  decide

/-- C4 counterexample: with a domain table configured, an extracted token
that does not decode makes the domain read throw, and the request fails
right there with the unauthorized status — domain resolution itself
produced the failure, the Verifier never decided. -/
theorem undecodable_token_fails_at_resolution :
    (jwtAudienceHandler ⟨fun _ => none, 0⟩
        { jwtVerifyOptions := ⟨none, none⟩, key := "456",
          domainedAudiences := some [("default", ⟨"aud2", "iss2", "456"⟩)] }
        (some "Bearer abc")).1 =
      ⟨false, 401, some .domainDecodeTypeError, none⟩ := by
  decide

/-- C4 amended: for a token that decodes, an absent domain claim resolves
to default; a domain found in the table substitutes its audience, issuer
and key into the constraints (mutating the shared options); an unknown
domain behaves exactly as the flat configuration, so resolution adds no
failure of its own there; an undecodable token, however, fails at
resolution with the unauthorized status (see the counterexample). -/
theorem domain_resolution_behaviour (env : JwtEnv) (opts : Options)
    (table : List (String × DomainEntry)) (token : String) (c : Claims)
    (hd : opts.domainedAudiences = some table)
    (hdec : decodeTok env token = some c) :
    (c.domain = none → resolveDomain c = "default")
    ∧ (∀ entry, table.lookup (resolveDomain c) = some entry →
        verifyStage env opts token =
          (runVerify env { opts with jwtVerifyOptions := entryVerifyOpts entry }
              entry.key (entryVerifyOpts entry) token,
           { opts with jwtVerifyOptions := entryVerifyOpts entry }))
    ∧ (table.lookup (resolveDomain c) = none →
        (verifyStage env opts token).1 =
          (verifyStage env { opts with domainedAudiences := none } token).1) := by
  refine ⟨fun h => by simp [resolveDomain, h], ?_, ?_⟩
  · intro entry he
    simp only [verifyStage, hd, hdec, he]
  · intro he
    simp only [verifyStage, hd, hdec, he, runVerify]

/-- C4 witness: a decodable token with a domain the table does not know is
verified exactly as under the flat configuration. -/
theorem domain_resolution_behaviour_witness :
    (verifyStage ⟨fun s => if s == "t" then some ⟨⟨none, none, some "other", none, []⟩, "kf"⟩ else none, 0⟩
        { jwtVerifyOptions := ⟨none, none⟩, key := "kf",
          domainedAudiences := some [("field", ⟨"a1", "i1", "k1"⟩)] } "t").1 =
      (verifyStage ⟨fun s => if s == "t" then some ⟨⟨none, none, some "other", none, []⟩, "kf"⟩ else none, 0⟩
        { jwtVerifyOptions := ⟨none, none⟩, key := "kf",
          domainedAudiences := none } "t").1 :=
  (domain_resolution_behaviour _ _ [("field", ⟨"a1", "i1", "k1"⟩)] "t"
      ⟨none, none, some "other", none, []⟩ rfl (by decide)).2.2 (by decide)

/-- C5 counterexample: an unexpected exception in the domain-resolution
stage (the TypeError thrown when an undecodable token's null decode is
indexed for its domain) is mapped to the unauthorized status 401, not to
the configured server-error status 500. -/
theorem resolution_exception_not_server_error :
    (jwtAudienceHandler ⟨fun _ => none, 0⟩
        { jwtVerifyOptions := ⟨none, none⟩, key := "57",
          domainedAudiences := some [("default", ⟨"audX", "issX", "57"⟩)] }
        (some "Bearer zzz")).1.status = 401 ∧
    (jwtAudienceHandler ⟨fun _ => none, 0⟩
        { jwtVerifyOptions := ⟨none, none⟩, key := "57",
          domainedAudiences := some [("default", ⟨"audX", "issX", "57"⟩)] }
        (some "Bearer zzz")).1.error = some .domainDecodeTypeError ∧
    ({ jwtVerifyOptions := ⟨none, none⟩, key := "57",
       domainedAudiences := some [("default", ⟨"audX", "issX", "57"⟩)] } : Options).serverErrorStatusCode = 500 ∧
    (401 : Nat) ≠ 500 := by
  decide

/-- C5 amended: every failure coming out of the second stage — domain
resolution and verification, whose exceptions the surrounding catch turns
into results — carries the configured unauthorized status (default 401),
not the server-error status (default 500). -/
theorem stage_two_failure_status (env : JwtEnv) (opts : Options) (token : String)
    (hfail : (verifyStage env opts token).1.success = false) :
    (verifyStage env opts token).1.status = opts.unauthorizedStatusCode
    ∧ (resolveOptions {} {}).unauthorizedStatusCode = 401
    ∧ (resolveOptions {} {}).serverErrorStatusCode = 500 := by
  refine ⟨?_, by decide, by decide⟩
  cases hda : opts.domainedAudiences with
  | none =>
    simp only [verifyStage, hda] at hfail ⊢
    exact runVerify_failure_status _ _ _ _ _ hfail
  | some table =>
    simp only [verifyStage, hda] at hfail ⊢
    cases hdec : decodeTok env token with
    | none => simp only [hdec]
    | some c =>
      simp only [hdec] at hfail ⊢
      cases hl : table.lookup (resolveDomain c) with
      | some entry =>
        simp only [hl] at hfail ⊢
        exact runVerify_failure_status _ _ _ _ _ hfail
      | none =>
        simp only [hl] at hfail ⊢
        exact runVerify_failure_status _ _ _ _ _ hfail

/-- C5 witness: a verification rejection (undecodable token under the flat
configuration) is returned with the unauthorized status. -/
theorem stage_two_failure_status_witness :
    (verifyStage ⟨fun _ => none, 0⟩ ({ key := "k" } : Options) "zz").1.status =
      ({ key := "k" } : Options).unauthorizedStatusCode
    ∧ (resolveOptions {} {}).unauthorizedStatusCode = 401
    ∧ (resolveOptions {} {}).serverErrorStatusCode = 500 :=
  stage_two_failure_status ⟨fun _ => none, 0⟩ { key := "k" } "zz" (by decide)

/-- C6 counterexample: with the configured scheme empty, a header of exactly
two parts whose first part differs from the scheme is not rejected as a
scheme mismatch: the whole header is taken as the token and the outcome is
a verification failure with status 401, not the bad-request status 400. -/
theorem empty_scheme_skips_scheme_check :
    splitOnSpace "JWT abc" = ["JWT", "abc"] ∧
    headerStage { authScheme := "", key := "k" } (some "JWT abc") = .ok "JWT abc" ∧
    (jwtAudienceHandler ⟨fun _ => none, 0⟩ { authScheme := "", key := "k" }
        (some "JWT abc")).1 = ⟨false, 401, some (.verifyFailed .badToken), none⟩ ∧
    (401 : Nat) ≠ ({ authScheme := "", key := "k" } : Options).badRequestStatusCode := by
  decide

/-- C6 amended: when the configured scheme is non-empty, a header value that
splits on spaces into exactly two parts has its first part compared
case-insensitively against the scheme: a mismatch is the
UNEXPECTED_AUTH_SCHEME failure with the configured bad-request status
(default 400), a match extracts the second part as the token.  (With an
empty scheme the whole header is the token and no comparison happens.) -/
theorem two_part_header_scheme_check (opts : Options) (h p0 p1 : String)
    (hs : opts.authScheme ≠ "")
    (hsplit : splitOnSpace h = [p0, p1]) :
    (lowerStr p0 ≠ lowerStr opts.authScheme →
      headerStage opts (some h) =
        .error ⟨false, opts.badRequestStatusCode, some .unexpectedAuthScheme, none⟩)
    ∧ (lowerStr p0 = lowerStr opts.authScheme → headerStage opts (some h) = .ok p1)
    ∧ (resolveOptions {} {}).badRequestStatusCode = 400 := by
  have hne : h ≠ "" := splitOnSpace_two_ne_empty h p0 p1 hsplit
  refine ⟨?_, ?_, by decide⟩
  · intro hcmp
    simp only [headerStage, if_neg hne, hsplit, List.length_cons, List.length_nil,
      List.headD, List.getD, List.get?]
    rw [if_neg (by simp [hs])]
    simp [hcmp]
  · intro hcmp
    simp only [headerStage, if_neg hne, hsplit, List.length_cons, List.length_nil,
      List.headD, List.getD, List.get?]
    rw [if_neg (by simp [hs])]
    simp [hcmp]

/-- C6 witness: a two-part header with the wrong scheme under the default
configuration is the UNEXPECTED_AUTH_SCHEME failure with status 400. -/
theorem two_part_header_scheme_check_witness :
    headerStage {} (some "Basic xyz") =
      .error ⟨false, ({} : Options).badRequestStatusCode, some .unexpectedAuthScheme, none⟩
    ∧ headerStage { authScheme := "bEaReR" } (some "Bearer xyz") = .ok "xyz" :=
  ⟨(two_part_header_scheme_check {} "Basic xyz" "Basic" "xyz" (by decide) (by decide)).1
      (by decide),
   (two_part_header_scheme_check { authScheme := "bEaReR" } "Bearer xyz" "Bearer" "xyz"
      (by decide) (by decide)).2.1 (by decide)⟩

/-- C7: a request with no credential header at all fails with the
NO_AUTHORIZATION_HEADER error and the configured unauthorized status
(default 401), whatever the verification environment — the right-hand side
does not mention the environment, so verification is never reached — and
the configuration is left untouched. -/
theorem missing_header_unauthorized :
    (∀ (env : JwtEnv) (opts : Options),
      jwtAudienceHandler env opts none =
        (⟨false, opts.unauthorizedStatusCode, some .noAuthorizationHeader, none⟩, opts))
    ∧ (resolveOptions {} {}).unauthorizedStatusCode = 401 :=
  ⟨fun _ _ => rfl, by decide⟩

/-- C8: the round trip.  A token signed with key K, audience A and issuer I,
not expired, presented as scheme-space-token with the configured non-empty
scheme, verified against the constraints built from exactly K, A and I,
succeeds with status 200, the payload attached to res.locals.jwt is the
signed claims object itself, and the configuration is unchanged. -/
theorem round_trip_verification (env : JwtEnv) (c : Claims) (K A I S s : String)
    (hK : K ≠ "")
    (hS : S ≠ "")
    (htok : env.tokenOf s = some (signToken c K))
    (haud : c.aud = some A)
    (hiss : c.iss = some I)
    (hexp : notExpired env.now c.exp = true)
    (hsplit : splitOnSpace (S ++ " " ++ s) = [S, s]) :
    jwtAudienceHandler env
        { authScheme := S, key := K, jwtVerifyOptions := ⟨some (.one A), some I⟩ }
        (some (S ++ " " ++ s)) =
      (⟨true, 200, none, some c⟩,
       { authScheme := S, key := K, jwtVerifyOptions := ⟨some (.one A), some I⟩ }) := by
  have hne : S ++ " " ++ s ≠ "" := splitOnSpace_two_ne_empty _ S s hsplit
  have hhdr : headerStage
      { authScheme := S, key := K, jwtVerifyOptions := ⟨some (.one A), some I⟩ }
      (some (S ++ " " ++ s)) = .ok s := by
    simp only [headerStage, if_neg hne, hsplit, List.length_cons, List.length_nil,
      List.headD, List.getD, List.get?]
    rw [if_neg (by simp [hS])]
    simp
  simp only [jwtAudienceHandler, hhdr, verifyStage, runVerify, verifyModel,
    if_neg hK, htok]
  simp [signToken, audOk, issOk, haud, hiss, hexp]

/-- C8 witness: a concrete signed token round-trips to success 200 with its
claims attached. -/
theorem round_trip_verification_witness :
    jwtAudienceHandler
        ⟨fun t => if t == "tk" then some (signToken ⟨some "A", some "I", none, none, []⟩ "k") else none, 0⟩
        { authScheme := "Bearer", key := "k", jwtVerifyOptions := ⟨some (.one "A"), some "I"⟩ }
        (some ("Bearer" ++ " " ++ "tk")) =
      (⟨true, 200, none, some ⟨some "A", some "I", none, none, []⟩⟩,
       { authScheme := "Bearer", key := "k", jwtVerifyOptions := ⟨some (.one "A"), some "I"⟩ }) :=
  round_trip_verification _ ⟨some "A", some "I", none, none, []⟩ "k" "A" "I" "Bearer" "tk"
    (by decide) (by decide) (by decide) rfl rfl (by decide) (by decide)

/-- C9: isExcludedRoute, embedded from the legacy handler concatenated
into src/src/audience-handler.spec.ts (lines 427-455), decides exclusion
exactly when some rule of the ordered list — equivalently, the first such
rule the linear scan reaches — matches the query-stripped, offset-stripped
path and permits the method; on the rule list of the claim a GET to /test2
is not excluded, a POST to /test2 is excluded, a GET to /?q=1 is excluded
once the query is stripped, and with the base-URL offset of /testApi a GET
to /testApi/ is excluded by the root pattern, as the baseUri test
expects. -/
theorem route_exclusion_first_match :
    (∀ (rules : List RouteExclusionRule) (baseUrlOffset : Nat) (originalUrl meth : String),
      isExcludedRoute (some rules) baseUrlOffset originalUrl meth = true ↔
        ∃ r ∈ rules, ruleMatches r (exclusionPath baseUrlOffset originalUrl) meth = true)
    ∧ isExcludedRoute
        (some [⟨fun p => p == "/", none⟩, ⟨fun p => p == "/test2", some ["POST"]⟩])
        0 "/test2" "GET" = false
    ∧ isExcludedRoute
        (some [⟨fun p => p == "/", none⟩, ⟨fun p => p == "/test2", some ["POST"]⟩])
        0 "/test2" "POST" = true
    ∧ isExcludedRoute
        (some [⟨fun p => p == "/", none⟩, ⟨fun p => p == "/test2", some ["POST"]⟩])
        0 "/?q=1" "GET" = true
    ∧ isExcludedRoute (some [⟨fun p => p == "/", none⟩])
        ("/testApi".length) "/testApi/" "GET" = true := by
  refine ⟨?_, by decide, by decide, by decide, by decide⟩
  intro rules baseUrlOffset originalUrl meth
  simp only [isExcludedRoute]
  generalize exclusionPath baseUrlOffset originalUrl = path
  induction rules with
  | nil => simp [isExcluded]
  | cons r rest ih =>
    by_cases hr : ruleMatches r path meth = true
    · simp only [isExcluded, if_pos hr]
      constructor
      · intro
        exact ⟨r, List.mem_cons_self r rest, hr⟩
      · intro
        trivial
    · simp only [isExcluded, if_neg hr, ih]
      constructor
      · rintro ⟨r', hmem, hr'⟩
        exact ⟨r', List.mem_cons_of_mem r hmem, hr'⟩
      · rintro ⟨r', hmem, hr'⟩
        rcases List.mem_cons.mp hmem with h | h
        · exact absurd (h ▸ hr') hr
        · exact ⟨r', h, hr'⟩

/-- C10: on the empty strategy list, the loop body never runs and the
uninitialized firstFailure — undefined, not a typed failure — is returned. -/
theorem authenticate_empty_is_undefined : authenticate [] = none := rfl
